import Mathlib

/-!
Shallow embedding of the vulkano-training program (src/main.rs) and proofs
about its device resolution, swapchain construction, resource creation,
command recording and presentation loop.

Modelling conventions:
* Machine floats in the source (`f32`) only ever hold exactly representable
  dyadic constants (0.5, 0.25, 1024.0, ...), so coordinates, priorities and
  clear values are modelled as `Rat`.
* A Rust panic (`expect`, `unwrap`, out-of-bounds indexing) in a function
  that the spec's error taxonomy covers is modelled as the corresponding
  error value of an `Except`/`Option` result; the failure is surfaced to the
  caller at the point of occurrence exactly as the panic is.
* External collaborators (the Vulkan driver's device enumeration, the
  surface's capabilities, the per-iteration result of `acquire_next_image`,
  and the windowing system's close-requested poll) are inputs to the
  embedded functions.
-/

namespace VulkanoTraining

/-- A queue family of a physical device, as used by `init`: the only data the
program reads are whether the family supports graphics and the queue count
printed in the diagnostic listing. -/
structure QueueFamily where
  idx : Nat
  supportsGraphics : Bool
  queuesCount : Nat
deriving DecidableEq

/-- A physical device as seen through `PhysicalDevice::enumerate`. -/
structure PhysDevice where
  name : String
  families : List QueueFamily
deriving DecidableEq

/-- Failures of `init`'s device-resolution part. `noDeviceFound` models the
panic "No physical devices supporting Vulkan API found" on the empty
enumeration, `noSuitableQueueFamily` the panic "No family supporting
GRAPHICS_BIT found in chosen device". -/
inductive InitError where
  | noDeviceFound
  | noSuitableQueueFamily
deriving DecidableEq

/-- The queue handle returned by `init`: `Device::new` is called with the
single pair `(chosen_family, 0.5)` and `queues.next()` yields one queue of
that family at priority 0.5. -/
structure Queue where
  family : QueueFamily
  priority : Rat
deriving DecidableEq

/-- Device resolution of `init` (src/main.rs lines 225-258):
`PhysicalDevice::enumerate(&instance).nth(0)` picks the first enumerated
device unconditionally, then `queue_families().find(|q| q.supports_graphics())`
picks the first graphics-capable family of that device. -/
def init (devs : List PhysDevice) : Except InitError Queue :=
  match devs with
  | [] => Except.error InitError.noDeviceFound
  | chosen :: _ =>
    match chosen.families.find? (fun q => q.supportsGraphics) with
    | none => Except.error InitError.noSuitableQueueFamily
    | some chosenFamily =>
      Except.ok { family := chosenFamily, priority := (1 : Rat) / 2 }

/-- One line of the diagnostic device listing (`println!` of the device name
followed by the queue counts of its families). -/
def deviceLogLine (d : PhysDevice) : String :=
  d.name ++ ": queues " ++
    String.intercalate " " (d.families.map (fun f => toString f.queuesCount))

/-- Device resolution together with its `#[cfg(debug_assertions)]` logging
blocks (src/main.rs lines 208-237): when `debugAssertions` is set the
program prints the enumeration and the chosen device; the produced log is
returned alongside the selection result. -/
def initLogged (debugAssertions : Bool) (devs : List PhysDevice) :
    Except InitError Queue × List String :=
  let enumLog :=
    if debugAssertions then
      "Listing available devices supporting Vulkan API: " :: devs.map deviceLogLine
    else []
  match devs with
  | [] => (Except.error InitError.noDeviceFound, enumLog)
  | chosen :: _ =>
    let chosenLog :=
      if debugAssertions then enumLog ++ ["Chosen device: " ++ chosen.name]
      else enumLog
    match chosen.families.find? (fun q => q.supportsGraphics) with
    | none => (Except.error InitError.noSuitableQueueFamily, chosenLog)
    | some chosenFamily =>
      (Except.ok { family := chosenFamily, priority := (1 : Rat) / 2 }, chosenLog)

/-- An opaque pixel format code. -/
structure Format where
  code : Nat
deriving DecidableEq

/-- An opaque color-space code (the second component of a supported-formats
entry, discarded by the program). -/
structure ColorSpace where
  code : Nat
deriving DecidableEq

/-- An opaque composite-alpha mode code. -/
structure CompositeAlpha where
  code : Nat
deriving DecidableEq

/-- Presentation modes of the swapchain. -/
inductive PresentMode where
  | immediate
  | mailbox
  | fifo
  | relaxed
deriving DecidableEq

/-- Surface transforms (the program always passes `Identity`). -/
inductive SurfaceTransform where
  | identity
deriving DecidableEq

/-- Surface capabilities as supplied by the window/surface collaborator. -/
structure Capabilities where
  currentExtent : Option (Nat × Nat)
  minImageCount : Nat
  supportedFormats : List (Format × ColorSpace)
  supportedCompositeAlpha : List CompositeAlpha
  supportedUsageFlags : Nat
deriving DecidableEq

/-- The configuration passed to `Swapchain::new`. -/
structure SwapchainConfig where
  numImages : Nat
  format : Format
  dimensions : Nat × Nat
  layers : Nat
  usage : Nat
  transform : SurfaceTransform
  compositeAlpha : CompositeAlpha
  presentMode : PresentMode
  clipped : Bool
deriving DecidableEq

/-- Swapchain construction (src/main.rs lines 55-64): dimensions are
`current_extent.unwrap_or([1280, 1024])`, the composite alpha is
`supported_composite_alpha.iter().next().unwrap()` (first supported mode,
`none` models the unwrap panic on an empty set), the format is
`supported_formats[0].0` (`none` models the out-of-bounds panic), and the
present mode is hardcoded `PresentMode::Fifo`. -/
def buildSwapchain (caps : Capabilities) : Option SwapchainConfig :=
  let dimensions := caps.currentExtent.getD (1280, 1024)
  match caps.supportedCompositeAlpha with
  | [] => none
  | alpha :: _ =>
    match caps.supportedFormats with
    | [] => none
    | (format, _) :: _ =>
      some
        { numImages := caps.minImageCount
          format := format
          dimensions := dimensions
          layers := 1
          usage := caps.supportedUsageFlags
          transform := SurfaceTransform.identity
          compositeAlpha := alpha
          presentMode := PresentMode.fifo
          clipped := true }

/-- The vertex type of the program: a 2D position. -/
structure Vertex where
  position : Rat × Rat
deriving DecidableEq

/-- First triangle vertex `[-0.5, -0.5]`. -/
def vertex1 : Vertex := { position := (-(1 : Rat) / 2, -(1 : Rat) / 2) }

/-- Second triangle vertex `[0.0, 0.5]`. -/
def vertex2 : Vertex := { position := (0, (1 : Rat) / 2) }

/-- Third triangle vertex `[0.5, -0.25]`. -/
def vertex3 : Vertex := { position := ((1 : Rat) / 2, -(1 : Rat) / 4) }

/-- Buffer creation from an iterator (`CpuAccessibleBuffer::from_iter`):
copies every element of the input sequence, in order, into a fresh region
sized to exactly hold them. -/
def cpuAccessibleBufferFromIter {α : Type} (elems : List α) : List α :=
  elems.foldr (fun v acc => v :: acc) []

/-- The vertex buffer built in `main` (src/main.rs lines 66-74). -/
def vertex_buffer : List Vertex :=
  cpuAccessibleBufferFromIter [vertex1, vertex2, vertex3]

/-- A viewport: origin, dimensions and depth range. -/
structure Viewport where
  origin : Rat × Rat
  dimensions : Rat × Rat
  depthRange : Rat × Rat
deriving DecidableEq

/-- The dynamic pipeline state; the program only ever sets viewports,
taking every other field from `DynamicState::none()`. -/
structure DynamicState where
  viewports : Option (List Viewport)
deriving DecidableEq

/-- The `DynamicState::none()` base value. -/
def dynamicStateNone : DynamicState := { viewports := none }

/-- The dynamic state configured in `main` before
`window_size_dependent_setup` runs (src/main.rs lines 143-151): one fixed
1024 by 1024 viewport at origin (0,0), depth range 0..1. -/
def dynamic_state : DynamicState :=
  { dynamicStateNone with
    viewports := some [{ origin := (0, 0)
                         dimensions := (1024, 1024)
                         depthRange := (0, 1) }] }

/-- A swapchain image: the only datum the program reads is its dimensions. -/
structure SwapchainImage where
  dimensions : Nat × Nat
deriving DecidableEq

/-- A framebuffer binding one swapchain image to the render pass. -/
structure Framebuffer where
  image : SwapchainImage
deriving DecidableEq

/-- Reinitialization hook (src/main.rs lines 276-297): reads
`images[0].dimensions()` (`none` models the out-of-bounds panic on an empty
image list), overwrites `dynamic_state.viewports` with a single full-image
viewport, and builds one framebuffer per swapchain image. -/
def window_size_dependent_setup (images : List SwapchainImage)
    (dynamicState : DynamicState) :
    Option (List Framebuffer × DynamicState) :=
  match images with
  | [] => none
  | img0 :: _ =>
    let dims := img0.dimensions
    let viewport : Viewport :=
      { origin := (0, 0)
        dimensions := ((dims.1 : Rat), (dims.2 : Rat))
        depthRange := (0, 1) }
    some
      (images.map (fun image => { image := image }),
       { dynamicState with viewports := some [viewport] })

/-- The graphics pipeline configuration built once in `main`
(src/main.rs lines 126-141): single-buffer vertex input, the two embedded
shaders, one dynamic viewport with scissors irrelevant, subpass 0 of the
single-pass render pass. -/
structure GraphicsPipelineConfig where
  vertexShader : String
  fragmentShader : String
  dynamicViewportCount : Nat
  subpassIndex : Nat
deriving DecidableEq

/-- The one pipeline the program builds. -/
def pipeline : GraphicsPipelineConfig :=
  { vertexShader := "vs.main"
    fragmentShader := "fs.main"
    dynamicViewportCount := 1
    subpassIndex := 0 }

/-- A clear value for one attachment. -/
inductive ClearValue where
  | float4 (r g b a : Rat)
deriving DecidableEq

/-- Operations recorded into a command buffer by the program. -/
inductive CmdOp where
  | beginRenderPass (framebufferIndex : Nat) (secondary : Bool)
      (clearValues : List ClearValue)
  | draw (pipeline : GraphicsPipelineConfig) (state : DynamicState)
      (vertices : List Vertex)
  | endRenderPass
deriving DecidableEq

/-- The command buffer recorded each iteration (src/main.rs lines 164-171):
begin the render pass on `framebuffers[image_num]` with clear value
blue `[0.0, 0.0, 1.0, 1.0]`, draw the triangle pipeline with the vertex
buffer under the current dynamic state, end the render pass. -/
def commandBufferFor (state : DynamicState) (imageNum : Nat) : List CmdOp :=
  [CmdOp.beginRenderPass imageNum false [ClearValue.float4 0 0 1 1],
   CmdOp.draw pipeline state vertex_buffer,
   CmdOp.endRenderPass]

/-- GPU future chains the program can build: an acquire future optionally
extended by `then_execute`, `then_swapchain_present`,
`then_signal_fence_and_flush`, or a host-blocking `wait` (which the program
never calls). -/
inductive FutureChain where
  | acquired (imageNum : Nat)
  | thenExecute (prev : FutureChain) (commands : List CmdOp)
  | thenSwapchainPresent (prev : FutureChain) (imageNum : Nat)
  | thenSignalFenceAndFlush (prev : FutureChain)
  | hostWait (prev : FutureChain)
deriving DecidableEq

/-- Whether a future chain contains a host-blocking wait stage. -/
def FutureChain.hasWait : FutureChain → Bool
  | FutureChain.acquired _ => false
  | FutureChain.thenExecute prev _ => prev.hasWait
  | FutureChain.thenSwapchainPresent prev _ => prev.hasWait
  | FutureChain.thenSignalFenceAndFlush prev => prev.hasWait
  | FutureChain.hostWait _ => true

/-- Errors of `swapchain::acquire_next_image`. -/
inductive AcquireError where
  | surfaceLost
  | outOfDate
  | other
deriving DecidableEq

/-- The external inputs consumed by one loop iteration: the result of
`acquire_next_image` and whether `poll_events` observes a
`CloseRequested` window event this iteration. -/
structure IterInput where
  acquire : Except AcquireError Nat
  closeRequested : Bool

/-- What one completed iteration produced: the acquired image index, the
recorded command buffer, and the future chain built from the acquire
future. -/
structure IterTrace where
  imageNum : Nat
  commands : List CmdOp
  future : FutureChain
deriving DecidableEq

/-- How the loop ended: `closed` via the break after a close request, `err`
via the `?` operator propagating an acquire error out of `main`, or
`running` when the modelled input list is exhausted with the loop still
going. -/
inductive LoopExit where
  | closed
  | err (e : AcquireError)
  | running
deriving DecidableEq

/-- The outcome of running the presentation loop on a finite input list. -/
structure LoopResult where
  iters : List IterTrace
  acquires : Nat
  exit : LoopExit
deriving DecidableEq

/-- The trace entry of one successful iteration: the command buffer for the
acquired image and the chain
`acquire_future.then_execute(...).then_swapchain_present(...).then_signal_fence_and_flush()`
(src/main.rs lines 164-176). -/
def iterTraceFor (state : DynamicState) (imageNum : Nat) : IterTrace :=
  { imageNum := imageNum
    commands := commandBufferFor state imageNum
    future :=
      FutureChain.thenSignalFenceAndFlush
        (FutureChain.thenSwapchainPresent
          (FutureChain.thenExecute (FutureChain.acquired imageNum)
            (commandBufferFor state imageNum))
          imageNum) }

/-- The presentation loop (src/main.rs lines 160-189). Each iteration calls
`acquire_next_image` (consuming one input; an error propagates via `?`),
records one command buffer, builds the future chain, then polls events and
breaks if a close was requested. -/
def renderLoop (state : DynamicState) : List IterInput → LoopResult
  | [] => { iters := [], acquires := 0, exit := LoopExit.running }
  | inp :: rest =>
    match inp.acquire with
    | Except.error e => { iters := [], acquires := 1, exit := LoopExit.err e }
    | Except.ok imageNum =>
      if inp.closeRequested then
        { iters := [iterTraceFor state imageNum]
          acquires := 1
          exit := LoopExit.closed }
      else
        let r := renderLoop state rest
        { iters := iterTraceFor state imageNum :: r.iters
          acquires := 1 + r.acquires
          exit := r.exit }

/-- Errors `main` can return (or panics it can die with). -/
inductive MainError where
  | initFailed (e : InitError)
  | swapchainPanic
  | setupPanic
  | acquireFailed (e : AcquireError)
deriving DecidableEq

/-- The body of `main` (src/main.rs lines 48-192): resolve the device, build
the swapchain (its images all have the swapchain's dimensions), create the
vertex buffer and pipeline, run `window_size_dependent_setup` on the initial
1024 by 1024 `dynamic_state`, then enter the presentation loop. -/
def runMain (devs : List PhysDevice) (caps : Capabilities)
    (inputs : List IterInput) :
    Except MainError (Queue × SwapchainConfig × DynamicState × LoopResult) :=
  match init devs with
  | Except.error e => Except.error (MainError.initFailed e)
  | Except.ok queue =>
    match buildSwapchain caps with
    | none => Except.error MainError.swapchainPanic
    | some cfg =>
      let images : List SwapchainImage :=
        List.replicate cfg.numImages { dimensions := cfg.dimensions }
      match window_size_dependent_setup images dynamic_state with
      | none => Except.error MainError.setupPanic
      | some (_fbs, state) =>
        Except.ok (queue, cfg, state, renderLoop state inputs)

/-- The value `main` returns to its caller: `some (ok)` when the loop broke
on a close request (`Ok(())`), `some (error ...)` when an error propagated
through `?`, and `none` when the modelled inputs ran out with the loop still
running (so `main` has not returned). -/
def mainResult (devs : List PhysDevice) (caps : Capabilities)
    (inputs : List IterInput) : Option (Except MainError Unit) :=
  match runMain devs caps inputs with
  | Except.error e => some (Except.error e)
  | Except.ok (_, _, _, r) =>
    match r.exit with
    | LoopExit.closed => some (Except.ok ())
    | LoopExit.err e => some (Except.error (MainError.acquireFailed e))
    | LoopExit.running => none

/-- Scan of a command list tracking whether a render pass is open; returns
false when a draw is recorded outside a begin/end pair. -/
def drawsWithinRenderPassAux : Bool → List CmdOp → Bool
  | _, [] => true
  | _, CmdOp.beginRenderPass _ _ _ :: rest => drawsWithinRenderPassAux true rest
  | _, CmdOp.endRenderPass :: rest => drawsWithinRenderPassAux false rest
  | inPass, CmdOp.draw _ _ _ :: rest => inPass && drawsWithinRenderPassAux inPass rest

/-- Every draw of the command list lies between a `beginRenderPass` and an
`endRenderPass`. -/
def drawsWithinRenderPass (ops : List CmdOp) : Bool :=
  drawsWithinRenderPassAux false ops

/-- A sample device whose only queue family lacks graphics support. -/
def deviceNoGraphics : PhysDevice :=
  { name := "integrated"
    families := [{ idx := 0, supportsGraphics := false, queuesCount := 1 }] }

/-- A sample device whose only queue family supports graphics. -/
def deviceGraphics : PhysDevice :=
  { name := "discrete"
    families := [{ idx := 0, supportsGraphics := true, queuesCount := 1 }] }

/-- A sample surface-capabilities value. -/
def sampleCaps : Capabilities :=
  { currentExtent := some (800, 600)
    minImageCount := 2
    supportedFormats := [({ code := 1 }, { code := 0 })]
    supportedCompositeAlpha := [{ code := 2 }]
    supportedUsageFlags := 31 }

/-- A loop-iteration input whose acquire succeeds and where no close was
requested. -/
def inputOk (n : Nat) : IterInput :=
  { acquire := Except.ok n, closeRequested := false }

/-- A loop-iteration input whose acquire succeeds and where a close request
is observed. -/
def inputClose (n : Nat) : IterInput :=
  { acquire := Except.ok n, closeRequested := true }

/-- A sample swapchain image of 640 by 480 pixels. -/
def sampleImage : SwapchainImage := { dimensions := (640, 480) }

/-- The dynamic state the reinitialization hook produces for `sampleImage`:
one full-image viewport. -/
def sampleSetupState : DynamicState :=
  { viewports := some [{ origin := (0, 0)
                         dimensions := (((640 : Nat) : Rat), ((480 : Nat) : Rat))
                         depthRange := (0, 1) }] }

/-- Every trace entry of the presentation loop is the canonical per-iteration
trace: the command buffer recorded for the acquired image and the
execute-present-signal future chain built on the acquire future. -/
theorem renderLoop_mem_iter (state : DynamicState) (inputs : List IterInput)
    (tr : IterTrace) (h : tr ∈ (renderLoop state inputs).iters) :
    tr.commands = commandBufferFor state tr.imageNum ∧
    tr.future
      = FutureChain.thenSignalFenceAndFlush
          (FutureChain.thenSwapchainPresent
            (FutureChain.thenExecute (FutureChain.acquired tr.imageNum)
              (commandBufferFor state tr.imageNum))
            tr.imageNum) := by
  induction inputs with
  | nil => simp [renderLoop] at h
  | cons inp rest ih =>
    rw [renderLoop] at h
    split at h
    · simp at h
    · split at h
      · simp at h
        subst h
        exact ⟨rfl, rfl⟩
      · simp at h
        rcases h with h | h
        · subst h
          exact ⟨rfl, rfl⟩
        · exact ih h

/-- Running the loop on a prefix of successful, close-free iterations
followed by anything continues into the remainder: the exit is decided by
the remainder, and the prefix contributes one acquire and one trace entry
per input. -/
theorem renderLoop_ok_noClose_append (state : DynamicState)
    (pre rest : List IterInput)
    (hpre : ∀ inp ∈ pre,
      inp.closeRequested = false ∧ ∃ n, inp.acquire = Except.ok n) :
    (renderLoop state (pre ++ rest)).exit = (renderLoop state rest).exit ∧
    (renderLoop state (pre ++ rest)).acquires
      = pre.length + (renderLoop state rest).acquires ∧
    (renderLoop state (pre ++ rest)).iters.length
      = pre.length + (renderLoop state rest).iters.length := by
  induction pre with
  | nil => simp
  | cons inp pre ih =>
    obtain ⟨hc, n, hacq⟩ := hpre inp (List.mem_cons_self _ _)
    have ihh := ih (fun i hi => hpre i (List.mem_cons_of_mem _ hi))
    refine ⟨?_, ?_, ?_⟩ <;>
      simp [renderLoop, hacq, hc, ihh.1, ihh.2.1, ihh.2.2] <;>
      omega

/-- C1 counterexample: an enumeration whose first device lacks a
graphics-capable queue family while a later device has one makes `init`
fail with `noSuitableQueueFamily`, although a device exposing the required
capability is present. -/
theorem init_skips_capable_later_device :
    (∃ d ∈ [deviceNoGraphics, deviceGraphics],
      ∃ fam ∈ d.families, fam.supportsGraphics = true) ∧
    init [deviceNoGraphics, deviceGraphics]
      = Except.error InitError.noSuitableQueueFamily := by
  constructor
  · exact ⟨deviceGraphics, by simp [deviceGraphics, deviceNoGraphics],
      { idx := 0, supportsGraphics := true, queuesCount := 1 },
      by simp [deviceGraphics], rfl⟩
  · rfl

/-- C1 (amended): whenever the first enumerated device exposes a queue
family supporting graphics, `init` succeeds and returns a queue whose family
supports graphics. -/
theorem init_first_device_first_fit (devs : List PhysDevice) (d : PhysDevice)
    (hd : devs.head? = some d) (fam : QueueFamily) (hmem : fam ∈ d.families)
    (hg : fam.supportsGraphics = true) :
    ∃ q, init devs = Except.ok q ∧ q.family.supportsGraphics = true := by
  cases devs with
  | nil => simp at hd
  | cons d0 tl =>
    simp [List.head?] at hd
    subst hd
    have hsome : (d0.families.find? (fun q => q.supportsGraphics)).isSome := by
      rw [List.find?_isSome]
      exact ⟨fam, hmem, hg⟩
    obtain ⟨f, hf⟩ := Option.isSome_iff_exists.mp hsome
    refine ⟨{ family := f, priority := (1 : Rat) / 2 }, ?_, ?_⟩
    · simp [init, hf]
    · exact List.find?_some hf

/-- C1 witness: the amended claim instantiated on a one-device enumeration
whose (first) device supports graphics. -/
theorem init_first_device_first_fit_spot :
    [deviceGraphics].head? = some deviceGraphics ∧
    ({ idx := 0, supportsGraphics := true, queuesCount := 1 } : QueueFamily)
      ∈ deviceGraphics.families ∧
    ({ idx := 0, supportsGraphics := true, queuesCount := 1 }
      : QueueFamily).supportsGraphics = true ∧
    ∃ q, init [deviceGraphics] = Except.ok q ∧
      q.family.supportsGraphics = true :=
  ⟨rfl, by simp [deviceGraphics], rfl,
    init_first_device_first_fit [deviceGraphics] deviceGraphics rfl
      { idx := 0, supportsGraphics := true, queuesCount := 1 }
      (by simp [deviceGraphics]) rfl⟩

/-- C6: for any surface capabilities with a nonempty supported-formats list
and a nonempty supported-composite-alpha set, the swapchain is built with
the first supported format, the first supported composite-alpha mode, and
`Fifo` present mode (dimensions being the current extent, 1280 by 1024 when
absent). -/
theorem swapchain_first_format_alpha_fifo (caps : Capabilities)
    (f : Format) (cs : ColorSpace) (ftl : List (Format × ColorSpace))
    (a : CompositeAlpha) (atl : List CompositeAlpha)
    (hf : caps.supportedFormats = (f, cs) :: ftl)
    (ha : caps.supportedCompositeAlpha = a :: atl) :
    ∃ cfg, buildSwapchain caps = some cfg ∧ cfg.format = f ∧
      cfg.compositeAlpha = a ∧ cfg.presentMode = PresentMode.fifo ∧
      cfg.dimensions = caps.currentExtent.getD (1280, 1024) := by
  refine ⟨{ numImages := caps.minImageCount
            format := f
            dimensions := caps.currentExtent.getD (1280, 1024)
            layers := 1
            usage := caps.supportedUsageFlags
            transform := SurfaceTransform.identity
            compositeAlpha := a
            presentMode := PresentMode.fifo
            clipped := true }, ?_, rfl, rfl, rfl, rfl⟩
  simp [buildSwapchain, hf, ha]

/-- C6 witness: the swapchain-selection theorem instantiated on a sample
capabilities value. -/
theorem swapchain_first_format_alpha_fifo_spot :
    sampleCaps.supportedFormats
      = (({ code := 1 } : Format), ({ code := 0 } : ColorSpace)) :: [] ∧
    sampleCaps.supportedCompositeAlpha = ({ code := 2 } : CompositeAlpha) :: [] ∧
    ∃ cfg, buildSwapchain sampleCaps = some cfg ∧
      cfg.format = { code := 1 } ∧
      cfg.compositeAlpha = { code := 2 } ∧
      cfg.presentMode = PresentMode.fifo ∧
      cfg.dimensions = sampleCaps.currentExtent.getD (1280, 1024) :=
  ⟨rfl, rfl,
    swapchain_first_format_alpha_fifo sampleCaps
      { code := 1 } { code := 0 } [] { code := 2 } [] rfl rfl⟩

/-- C7: on an empty device enumeration, device resolution fails with
`noDeviceFound`, and `main` surfaces that failure to its caller immediately,
with no retry or fallback. -/
theorem empty_enumeration_noDeviceFound :
    init [] = Except.error InitError.noDeviceFound ∧
    ∀ (caps : Capabilities) (inputs : List IterInput),
      runMain [] caps inputs
        = Except.error (MainError.initFailed InitError.noDeviceFound) :=
  ⟨rfl, fun _ _ => rfl⟩

/-- C8: the diagnostic logging emitted under `debug_assertions` has no
effect on device selection: the selection result with logging enabled equals
the one with logging disabled, and both equal plain `init`. -/
theorem logging_unaffects_selection (devs : List PhysDevice) :
    (initLogged true devs).fst = (initLogged false devs).fst ∧
    (initLogged true devs).fst = init devs := by
  cases devs with
  | nil => exact ⟨rfl, rfl⟩
  | cons d tl =>
    cases hf : d.families.find? (fun q => q.supportsGraphics) with
    | none => simp [initLogged, init, hf]
    | some fam => simp [initLogged, init, hf]

/-- C9: the vertex buffer created at startup holds exactly the three
host-supplied vertices (-0.5, -0.5), (0.0, 0.5), (0.5, -0.25) in that order,
and its length is exactly three. -/
theorem vertex_buffer_exact :
    vertex_buffer
      = [{ position := (-(1 : Rat) / 2, -(1 : Rat) / 2) },
         { position := (0, (1 : Rat) / 2) },
         { position := ((1 : Rat) / 2, -(1 : Rat) / 4) }] ∧
    vertex_buffer.length = 3 :=
  ⟨rfl, rfl⟩

/-- C2 (code behavior at the claimed scenario): when `acquire_next_image`
fails with `SurfaceLost`, the `?` operator makes the loop exit with that
error and `main` returns it to its caller instead of returning normally. -/
theorem surfaceLost_propagates_from_main :
    mainResult [deviceGraphics] sampleCaps
        [{ acquire := Except.error AcquireError.surfaceLost,
           closeRequested := false }]
      = some (Except.error (MainError.acquireFailed AcquireError.surfaceLost)) ∧
    ∀ (state : DynamicState) (rest : List IterInput),
      (renderLoop state
          ({ acquire := Except.error AcquireError.surfaceLost,
             closeRequested := false } :: rest)).exit
        = LoopExit.err AcquireError.surfaceLost :=
  ⟨rfl, fun _ _ => rfl⟩

/-- C3: when the close request is observed for the first time during
iteration k (after k error-free, close-free iterations), the loop completes
iteration k and stops: it exits with `closed`, performs exactly k+1 acquire
calls (none beyond iteration k, whatever inputs follow), and records exactly
k+1 iteration traces; moreover without a close request and without an error
the loop never exits. -/
theorem loop_stops_at_first_close (state : DynamicState)
    (pre rest : List IterInput) (inpK : IterInput) (n : Nat)
    (hpre : ∀ inp ∈ pre,
      inp.closeRequested = false ∧ ∃ m, inp.acquire = Except.ok m)
    (hacq : inpK.acquire = Except.ok n) (hclose : inpK.closeRequested = true) :
    (renderLoop state (pre ++ inpK :: rest)).exit = LoopExit.closed ∧
    (renderLoop state (pre ++ inpK :: rest)).acquires = pre.length + 1 ∧
    (renderLoop state (pre ++ inpK :: rest)).iters.length = pre.length + 1 ∧
    (renderLoop state pre).exit = LoopExit.running := by
  have hk : renderLoop state (inpK :: rest)
      = { iters := [iterTraceFor state n]
          acquires := 1
          exit := LoopExit.closed } := by
    simp [renderLoop, hacq, hclose]
  have h1 := renderLoop_ok_noClose_append state pre (inpK :: rest) hpre
  have h2 := renderLoop_ok_noClose_append state pre [] hpre
  rw [List.append_nil] at h2
  refine ⟨?_, ?_, ?_, ?_⟩
  · rw [h1.1, hk]
  · rw [h1.2.1, hk]
  · rw [h1.2.2, hk]
    simp
  · rw [h2.1]
    rfl

/-- C3 witness: the first-close theorem instantiated with one close-free
iteration, a close observed on the second iteration, and a further pending
input that is never consumed. -/
theorem loop_stops_at_first_close_spot :
    (∀ inp ∈ [inputOk 0],
      inp.closeRequested = false ∧ ∃ m, inp.acquire = Except.ok m) ∧
    (inputClose 1).acquire = Except.ok 1 ∧
    (inputClose 1).closeRequested = true ∧
    ((renderLoop dynamic_state ([inputOk 0] ++ inputClose 1 :: [inputOk 2])).exit
        = LoopExit.closed ∧
      (renderLoop dynamic_state
          ([inputOk 0] ++ inputClose 1 :: [inputOk 2])).acquires
        = [inputOk 0].length + 1 ∧
      (renderLoop dynamic_state
          ([inputOk 0] ++ inputClose 1 :: [inputOk 2])).iters.length
        = [inputOk 0].length + 1 ∧
      (renderLoop dynamic_state [inputOk 0]).exit = LoopExit.running) :=
  have hpre : ∀ inp ∈ [inputOk 0],
      inp.closeRequested = false ∧ ∃ m, inp.acquire = Except.ok m :=
    fun inp hi => by
      rcases List.mem_singleton.mp hi with rfl
      exact ⟨rfl, 0, rfl⟩
  ⟨hpre, rfl, rfl,
    loop_stops_at_first_close dynamic_state [inputOk 0] [inputOk 2]
      (inputClose 1) 1 hpre rfl rfl⟩

/-- C4: in every completed loop iteration the future chain is exactly
acquire, then command-buffer execution, then swapchain presentation, then
fence signal and flush — and it contains no host-blocking wait. -/
theorem future_chain_ordered (state : DynamicState) (inputs : List IterInput)
    (tr : IterTrace) (h : tr ∈ (renderLoop state inputs).iters) :
    tr.future
      = FutureChain.thenSignalFenceAndFlush
          (FutureChain.thenSwapchainPresent
            (FutureChain.thenExecute (FutureChain.acquired tr.imageNum)
              tr.commands)
            tr.imageNum) ∧
    tr.future.hasWait = false := by
  obtain ⟨hc, hf⟩ := renderLoop_mem_iter state inputs tr h
  constructor
  · rw [hf, hc]
  · rw [hf]
    rfl

/-- C4 witness: the chain-order theorem instantiated on a one-iteration
run. -/
theorem future_chain_ordered_spot :
    iterTraceFor dynamic_state 0
      ∈ (renderLoop dynamic_state [inputClose 0]).iters ∧
    ((iterTraceFor dynamic_state 0).future
        = FutureChain.thenSignalFenceAndFlush
            (FutureChain.thenSwapchainPresent
              (FutureChain.thenExecute
                (FutureChain.acquired (iterTraceFor dynamic_state 0).imageNum)
                (iterTraceFor dynamic_state 0).commands)
              (iterTraceFor dynamic_state 0).imageNum) ∧
      (iterTraceFor dynamic_state 0).future.hasWait = false) :=
  ⟨by simp [renderLoop, inputClose],
    future_chain_ordered dynamic_state [inputClose 0]
      (iterTraceFor dynamic_state 0) (by simp [renderLoop, inputClose])⟩

/-- C5: every command buffer the loop builds records exactly begin render
pass on the acquired image's framebuffer with clear value (0,0,1,1), one
draw of the triangle pipeline with the vertex buffer, then end render pass;
in particular every recorded draw lies inside a render pass. -/
theorem command_list_shape (state : DynamicState) (inputs : List IterInput)
    (tr : IterTrace) (h : tr ∈ (renderLoop state inputs).iters) :
    tr.commands
      = [CmdOp.beginRenderPass tr.imageNum false [ClearValue.float4 0 0 1 1],
         CmdOp.draw pipeline state vertex_buffer,
         CmdOp.endRenderPass] ∧
    drawsWithinRenderPass tr.commands = true := by
  obtain ⟨hc, _⟩ := renderLoop_mem_iter state inputs tr h
  refine ⟨hc, ?_⟩
  rw [hc]
  rfl

/-- C5 witness: the command-list theorem instantiated on a one-iteration
run. -/
theorem command_list_shape_spot :
    iterTraceFor dynamic_state 0
      ∈ (renderLoop dynamic_state [inputClose 0]).iters ∧
    ((iterTraceFor dynamic_state 0).commands
        = [CmdOp.beginRenderPass (iterTraceFor dynamic_state 0).imageNum false
             [ClearValue.float4 0 0 1 1],
           CmdOp.draw pipeline dynamic_state vertex_buffer,
           CmdOp.endRenderPass] ∧
      drawsWithinRenderPass (iterTraceFor dynamic_state 0).commands = true) :=
  ⟨by simp [renderLoop, inputClose],
    command_list_shape dynamic_state [inputClose 0]
      (iterTraceFor dynamic_state 0) (by simp [renderLoop, inputClose])⟩

/-- C10: whatever dynamic state was configured before
`window_size_dependent_setup` (in particular the fixed 1024 by 1024
viewport), after the hook runs every draw recorded by the loop carries the
hook's state, whose single viewport has the swapchain image's dimensions,
origin (0,0), and depth range 0..1. -/
theorem draw_viewport_is_image_size (img0 : SwapchainImage)
    (restImgs : List SwapchainImage) (ds0 ds1 : DynamicState)
    (fbs : List Framebuffer) (inputs : List IterInput)
    (hsetup : window_size_dependent_setup (img0 :: restImgs) ds0
      = some (fbs, ds1))
    (tr : IterTrace) (htr : tr ∈ (renderLoop ds1 inputs).iters)
    (p : GraphicsPipelineConfig) (s : DynamicState) (vb : List Vertex)
    (hdraw : CmdOp.draw p s vb ∈ tr.commands) :
    s.viewports
      = some [{ origin := (0, 0)
                dimensions := ((img0.dimensions.1 : Rat),
                               (img0.dimensions.2 : Rat))
                depthRange := (0, 1) }] ∧
    ds1.viewports = s.viewports := by
  have hds1 : ds1.viewports
      = some [{ origin := (0, 0)
                dimensions := ((img0.dimensions.1 : Rat),
                               (img0.dimensions.2 : Rat))
                depthRange := (0, 1) }] := by
    have h' := hsetup
    simp only [window_size_dependent_setup, Option.some.injEq,
      Prod.mk.injEq] at h'
    obtain ⟨_, hds⟩ := h'
    rw [← hds]
  obtain ⟨hc, _⟩ := renderLoop_mem_iter ds1 inputs tr htr
  rw [hc] at hdraw
  simp only [commandBufferFor, List.mem_cons, List.not_mem_nil, or_false,
    reduceCtorEq, false_or, CmdOp.draw.injEq] at hdraw
  obtain ⟨hp, hs, hv⟩ := hdraw
  subst hs
  exact ⟨hds1, rfl⟩

/-- C10 witness: the viewport theorem instantiated on a 640 by 480 swapchain
image starting from the fixed 1024 by 1024 state. -/
theorem draw_viewport_is_image_size_spot :
    window_size_dependent_setup [sampleImage] dynamic_state
      = some ([{ image := sampleImage }], sampleSetupState) ∧
    iterTraceFor sampleSetupState 0
      ∈ (renderLoop sampleSetupState [inputClose 0]).iters ∧
    CmdOp.draw pipeline sampleSetupState vertex_buffer
      ∈ (iterTraceFor sampleSetupState 0).commands ∧
    (sampleSetupState.viewports
        = some [{ origin := (0, 0)
                  dimensions := ((sampleImage.dimensions.1 : Rat),
                                 (sampleImage.dimensions.2 : Rat))
                  depthRange := (0, 1) }] ∧
      sampleSetupState.viewports = sampleSetupState.viewports) :=
  ⟨rfl, by simp [renderLoop, inputClose],
    by simp [iterTraceFor, commandBufferFor],
    draw_viewport_is_image_size sampleImage [] dynamic_state sampleSetupState
      [{ image := sampleImage }] [inputClose 0] rfl
      (iterTraceFor sampleSetupState 0) (by simp [renderLoop, inputClose])
      pipeline sampleSetupState vertex_buffer
      (by simp [iterTraceFor, commandBufferFor])⟩

end VulkanoTraining
